import Mathlib

/-!
Shallow embedding of the apigrate/shield credential-and-session engine.

The credential store is a `List UserRec` queried by username, email, or
reset token (`User.one({...})` → first match) and updated by a full-row
replace keyed by id (`User.update`).  The bcrypt hasher is abstract: a
`verify : String → String → Bool` comparison and a
`hashFn : String → Nat → String` generator passed as parameters.  Time is
UTC seconds as `Nat`; `moment().add(1,'day')` is `+ 86400`.
-/

/-- User record (t_user row) as read and written by src/index.js.
`password` holds the bcrypt hash (the code's `user.password` field). -/
structure UserRec where
  id : Nat
  username : String
  email : String
  password : String
  status : String
  must_reset_password : Bool
  bad_login_attempts : Nat
  last_login : Option Nat
  login_count : Nat
  reset_password_token : Option String
  reset_password_token_expires : Option Nat
deriving DecidableEq, Repr

/-- Session record (id, user_id, expires) from create-tables.sql / session.js. -/
structure SessionRec where
  id : Nat
  user_id : Nat
  expires : Nat
deriving DecidableEq, Repr

/-- Role-assignment row (t_user_role): a role label attached to a user id. -/
structure RoleRec where
  user_id : Nat
  role : String
deriving DecidableEq, Repr

/-- Caller-facing failure of `login` after the normalizing catch handler at
src/index.js lines 191-206: `UserNotFoundError`, `InvalidPasswordError` and
unexpected errors are replaced by a plain `Error('Invalid login.')`
(`genericError`), while `UserSuspendedError` and `PasswordExpiredError`
are rejected unchanged. -/
inductive CallerFailure where
  | genericError (msg : String)
  | userSuspendedError (msg : String)
  | passwordExpiredError (msg : String)
deriving DecidableEq, Repr

/-- The value `login` resolves with: the updated user record with the
role labels pushed onto it. -/
structure Identity where
  user : UserRec
  roles : List String
deriving DecidableEq, Repr

/-- `User.one({username: username})`: first record matching the username. -/
def getByUsername (store : List UserRec) (username : String) : Option UserRec :=
  store.find? (fun r => r.username == username)

/-- `User.getByEmail`: first record matching the email. -/
def getByEmail (store : List UserRec) (email : String) : Option UserRec :=
  store.find? (fun r => r.email == email)

/-- `User.getByPasswordResetToken`: first record whose reset token matches. -/
def getByPasswordResetToken (store : List UserRec) (token : String) : Option UserRec :=
  store.find? (fun r => r.reset_password_token == some token)

/-- `User.update`: full-row replace keyed by id. -/
def updateUser (store : List UserRec) (u : UserRec) : List UserRec :=
  store.map (fun r => if r.id = u.id then u else r)

/-- `UserRole.getRolesForUser` followed by the `_.each` loop that pushes
each row's `role` label, in table order. -/
def getRolesForUser (roleTable : List RoleRec) (uid : Nat) : List String :=
  (roleTable.filter (fun r => r.user_id == uid)).map (fun r => r.role)

/-- JavaScript `opts.x || d` on a numeric option: an absent option or a
falsy (0) value falls back to the default. -/
def jsOrDefault : Option Nat → Nat → Nat
  | some n, d => if n = 0 then d else n
  | none, d => d

/-- Message of `UserSuspendedError` in src/index.js. -/
def suspendedMsg : String :=
  "Your account has been suspended. Please contact your administrator."

/-- Message of `PasswordExpiredError` in src/index.js. -/
def passwordExpiredMsg : String := "Your password has expired and must be reset."

/-- Message of the normalized generic failure in src/index.js. -/
def invalidLoginMsg : String := "Invalid login."

/-- `login(username, plainTextPassword)` from src/index.js lines 114-208.
`verify` stands for `bcrypt.compare`, `max_bad_logins` for
`opts.max_bad_logins` (`|| 10`), `now` for the UTC clock read by
`moment().utc()`.  Returns the caller-visible settlement of the promise
together with the credential store after any `User.update`. -/
def login (verify : String → String → Bool) (max_bad_logins : Option Nat)
    (now : Nat) (roleTable : List RoleRec) (store : List UserRec)
    (username plainTextPassword : String) :
    Except CallerFailure Identity × List UserRec :=
  match getByUsername store username with
  | none => (Except.error (CallerFailure.genericError invalidLoginMsg), store)
  | some user =>
    if user.status = "suspended" then
      (Except.error (CallerFailure.userSuspendedError suspendedMsg), store)
    else if user.must_reset_password then
      (Except.error (CallerFailure.passwordExpiredError passwordExpiredMsg), store)
    else if verify plainTextPassword user.password then
      if user.status = "active" then
        let u : UserRec := { user with
          bad_login_attempts := 0
          last_login := some now
          login_count := user.login_count + 1 }
        (Except.ok ⟨u, getRolesForUser roleTable u.id⟩, updateUser store u)
      else
        (Except.error (CallerFailure.userSuspendedError suspendedMsg), store)
    else
      let m := jsOrDefault max_bad_logins 10
      let n := user.bad_login_attempts + 1
      let u : UserRec := { user with
        bad_login_attempts := n
        status := if m ≤ n then "suspended" else user.status }
      (Except.error (CallerFailure.genericError invalidLoginMsg), updateUser store u)

/-- Failure of `generateResetPasswordToken`: the `UserNotFoundError`
rejected when neither lookup matches (src/index.js line 233). -/
inductive ResetRequestFailure where
  | userNotFound (msg : String)
deriving DecidableEq, Repr

/-- 24 hours in seconds: `moment().add(1, 'day')`. -/
def resetTokenTtlSeconds : Nat := 86400

/-- The record as mutated by token issuance: a fresh opaque token and an
expiry of now + 24h (src/index.js lines 237-238). -/
def withResetToken (u : UserRec) (tk : String) (now : Nat) : UserRec :=
  { u with
    reset_password_token := some tk
    reset_password_token_expires := some (now + resetTokenTtlSeconds) }

/-- The lookup sequence of `generateResetPasswordToken`: `User.getByEmail`
first, `User.getByUsername` only when the email lookup came back empty. -/
def lookupByEmailThenUsername (store : List UserRec) (uidString : String) :
    Option UserRec :=
  match getByEmail store uidString with
  | some u => some u
  | none => getByUsername store uidString

/-- `generateResetPasswordToken(uidString)` from src/index.js lines 217-250.
`newToken` stands for the `uuid()` value.  When neither lookup matches, the
promise is rejected with `UserNotFoundError` before any `User.update` runs
(the subsequent TypeError on the undefined record is swallowed because the
promise is already settled), so the store is returned unchanged. -/
def generateResetPasswordToken (newToken : String) (now : Nat)
    (store : List UserRec) (uidString : String) :
    Except ResetRequestFailure UserRec × List UserRec :=
  match lookupByEmailThenUsername store uidString with
  | none =>
      (Except.error (ResetRequestFailure.userNotFound "Unable to reset password."), store)
  | some u =>
      let u2 := withResetToken u newToken now
      (Except.ok u2, updateUser store u2)

/-- Failures of `resetPassword`: `InvalidResetTokenError` and
`ExpiredResetTokenError` (both constructed with no message). -/
inductive ResetFailure where
  | invalidResetToken
  | expiredResetToken
deriving DecidableEq, Repr

/-- `moment(expires).isBefore(moment())`: true exactly when an expiry is
present and strictly before `now` (`moment(null)` is invalid and
`isBefore` on an invalid moment is false). -/
def expiresBeforeNow : Option Nat → Nat → Bool
  | none, _ => false
  | some t, now => decide (t < now)

/-- `resetPassword(token, newPlainTextPassword)` from src/index.js lines
262-301.  `hashFn` stands for `bcrypt.hash`, `salt_rounds` for
`opts.salt_rounds`.  On the valid-token path the code invokes
`bcrypt.hash` with a node-style callback; the callback's `User.update`
result never flows back into the promise chain, so the chain's next
`.then` receives `undefined` and the promise resolves with `undefined`
even though the mutated record is persisted.  The success payload is
therefore `Option UserRec` and is `none` on that path. -/
def resetPassword (hashFn : String → Nat → String) (salt_rounds : Nat)
    (now : Nat) (store : List UserRec) (token newPlainTextPassword : String) :
    Except ResetFailure (Option UserRec) × List UserRec :=
  match getByPasswordResetToken store token with
  | none => (Except.error ResetFailure.invalidResetToken, store)
  | some user =>
    if expiresBeforeNow user.reset_password_token_expires now then
      (Except.error ResetFailure.expiredResetToken, store)
    else
      let u : UserRec := { user with
        password := hashFn newPlainTextPassword salt_rounds
        must_reset_password := false
        reset_password_token := none
        reset_password_token_expires := none
        bad_login_attempts := 0 }
      (Except.ok none, updateUser store u)

/-- The session object an express request may carry: `req.session.user`
is the record placed there by the login route, or absent. -/
structure ReqSession where
  user : Option UserRec
deriving DecidableEq, Repr

/-- Outcome of the route-guard middleware: `next()` or
`res.redirect(target)`. -/
inductive GuardResult where
  | next
  | redirect (target : String)
deriving DecidableEq, Repr

/-- `security.secureFollowingRoutes` from src/index.js lines 44-67.
`session = none` covers both a missing and an `_.isEmpty` session, and
`user = none` an absent/empty `req.session.user`.  The middleware touches
no store, which the embedding records by threading the user and session
stores through unchanged. -/
def secureFollowingRoutes (store : List UserRec) (sessions : List SessionRec)
    (session : Option ReqSession) (path : String) :
    GuardResult × List UserRec × List SessionRec :=
  let requestedPath := "?rp=" ++ path
  match session with
  | none => (GuardResult.redirect ("/login" ++ requestedPath), store, sessions)
  | some s =>
    match s.user with
    | none => (GuardResult.redirect ("/login" ++ requestedPath), store, sessions)
    | some u =>
      if u.status = "active" then (GuardResult.next, store, sessions)
      else (GuardResult.redirect ("/login" ++ requestedPath), store, sessions)

/-- Row-by-row effect of a SQL `DELETE ... WHERE p`: the affected-row
count together with the surviving rows. -/
def deleteRowsWhere (p : SessionRec → Bool) : List SessionRec → Nat × List SessionRec
  | [] => (0, [])
  | s :: rest =>
    let r := deleteRowsWhere p rest
    if p s then (r.1 + 1, r.2) else (r.1, s :: r.2)

/-- `Session.deleteWhereExpired` from src/package/lib/db/session.js:
`deleteWhere('expires < CURRENT_TIMESTAMP')` — a strict comparison. -/
def deleteWhereExpired (now : Nat) (sessions : List SessionRec) :
    Nat × List SessionRec :=
  deleteRowsWhere (fun s => decide (s.expires < now)) sessions

/-- One tick of `reapExpiredSessions` (src/unnamed/part_001 lines 232-243):
the interval callback runs `Session.deleteWhereExpired` and reports
`result._affectedRows`, the count of removed rows. -/
def reapExpiredSessionsTick (now : Nat) (sessions : List SessionRec) :
    Nat × List SessionRec :=
  deleteWhereExpired now sessions

/-- On a failed password comparison for a found, non-suspended,
non-reset-flagged user, `login` persists the incremented counter (suspending
at the threshold) and fails with the normalized generic error. -/
theorem login_wrongPassword_eq (verify : String → String → Bool)
    (mbl : Option Nat) (now : Nat) (roleTable : List RoleRec)
    (store : List UserRec) (username pw : String) (u : UserRec)
    (hfind : getByUsername store username = some u)
    (hsusp : u.status ≠ "suspended")
    (hmr : u.must_reset_password = false)
    (hpw : verify pw u.password = false) :
    login verify mbl now roleTable store username pw =
      (Except.error (CallerFailure.genericError invalidLoginMsg),
       updateUser store { u with
         bad_login_attempts := u.bad_login_attempts + 1
         status := if jsOrDefault mbl 10 ≤ u.bad_login_attempts + 1 then "suspended"
                   else u.status }) := by
  unfold login
  rw [hfind]
  simp only [if_neg hsusp, hmr, hpw, Bool.false_eq_true, if_false]

/-- On a successful password comparison for a found, active,
non-reset-flagged user, `login` persists the reset counter, clock and
incremented login count and resolves with the identity and its roles. -/
theorem login_success_eq (verify : String → String → Bool)
    (mbl : Option Nat) (now : Nat) (roleTable : List RoleRec)
    (store : List UserRec) (username pw : String) (u : UserRec)
    (hfind : getByUsername store username = some u)
    (hactive : u.status = "active")
    (hmr : u.must_reset_password = false)
    (hpw : verify pw u.password = true) :
    login verify mbl now roleTable store username pw =
      (Except.ok ⟨{ u with
          bad_login_attempts := 0
          last_login := some now
          login_count := u.login_count + 1 },
        getRolesForUser roleTable u.id⟩,
       updateUser store { u with
          bad_login_attempts := 0
          last_login := some now
          login_count := u.login_count + 1 }) := by
  have hsusp : u.status ≠ "suspended" := by rw [hactive]; decide
  unfold login
  rw [hfind]
  simp only [if_neg hsusp, hmr, hpw, Bool.false_eq_true, if_false, if_true,
    if_pos hactive]

/-- Claim C1: for every unknown username, login fails with the generic
InvalidCredentials kind, and this failure is observably identical (same
caller-facing kind and message) to the failure produced by a wrong password
for a known, active, non-reset-flagged username. -/
theorem login_unknown_user_indistinguishable
    (verify : String → String → Bool) (mbl : Option Nat) (now : Nat)
    (roleTable : List RoleRec) (store1 store2 : List UserRec)
    (un1 un2 pw1 pw2 : String) (u : UserRec)
    (h1 : getByUsername store1 un1 = none)
    (h2 : getByUsername store2 un2 = some u)
    (h3 : u.status = "active")
    (h4 : u.must_reset_password = false)
    (h5 : verify pw2 u.password = false) :
    (login verify mbl now roleTable store1 un1 pw1).1 =
      (login verify mbl now roleTable store2 un2 pw2).1 ∧
    (login verify mbl now roleTable store1 un1 pw1).1 =
      Except.error (CallerFailure.genericError invalidLoginMsg) := by
  have hne : u.status ≠ "suspended" := by rw [h3]; decide
  have e2 := login_wrongPassword_eq verify mbl now roleTable store2 un2 pw2 u
    h2 hne h4 h5
  have e1 : login verify mbl now roleTable store1 un1 pw1 =
      (Except.error (CallerFailure.genericError invalidLoginMsg), store1) := by
    unfold login; rw [h1]
  rw [e1, e2]
  exact ⟨rfl, rfl⟩

/-- An active user with two prior bad attempts, for witnesses. -/
def wBob : UserRec :=
  { id := 2, username := "bob", email := "bob@x", password := "H2",
    status := "active", must_reset_password := false, bad_login_attempts := 2,
    last_login := none, login_count := 0, reset_password_token := none,
    reset_password_token_expires := none }

theorem login_unknown_user_indistinguishable_witness :
    (login (fun _ _ => false) none 0 [] [] "ghost" "pw").1 =
      (login (fun _ _ => false) none 0 [] [wBob] "bob" "wrong").1 ∧
    (login (fun _ _ => false) none 0 [] [] "ghost" "pw").1 =
      Except.error (CallerFailure.genericError invalidLoginMsg) :=
  login_unknown_user_indistinguishable (fun _ _ => false) none 0 [] [] [wBob]
    "ghost" "bob" "pw" "wrong" wBob rfl (by decide) rfl rfl rfl

/-- Claim C2: on a wrong password for an existing, non-suspended,
non-reset-flagged user, bad_login_attempts is incremented by 1, the status
becomes suspended when the new count reaches the configured threshold, the
updated record is persisted before the call returns, and the call fails
with the generic InvalidCredentials error even on the suspending attempt. -/
theorem login_bad_password_updates
    (verify : String → String → Bool) (mbl : Option Nat) (now : Nat)
    (roleTable : List RoleRec) (store : List UserRec) (username pw : String)
    (u : UserRec)
    (hfind : getByUsername store username = some u)
    (hsusp : u.status ≠ "suspended")
    (hmr : u.must_reset_password = false)
    (hpw : verify pw u.password = false) :
    ∃ u2 : UserRec,
      login verify mbl now roleTable store username pw =
        (Except.error (CallerFailure.genericError invalidLoginMsg),
         updateUser store u2) ∧
      u2.bad_login_attempts = u.bad_login_attempts + 1 ∧
      (jsOrDefault mbl 10 ≤ u.bad_login_attempts + 1 → u2.status = "suspended") := by
  refine ⟨_,
    login_wrongPassword_eq verify mbl now roleTable store username pw u
      hfind hsusp hmr hpw, rfl, ?_⟩
  intro h
  exact if_pos h

theorem login_bad_password_updates_witness :
    ∃ u2 : UserRec,
      login (fun _ _ => false) (some 3) 0 [] [wBob] "bob" "nope" =
        (Except.error (CallerFailure.genericError invalidLoginMsg),
         updateUser [wBob] u2) ∧
      u2.bad_login_attempts = wBob.bad_login_attempts + 1 ∧
      (jsOrDefault (some 3) 10 ≤ wBob.bad_login_attempts + 1 →
        u2.status = "suspended") :=
  login_bad_password_updates (fun _ _ => false) (some 3) 0 [] [wBob] "bob"
    "nope" wBob rfl (by decide) rfl rfl

/-- Claim C10: on a wrong-password failure (user exists, not suspended,
must_reset_password false), the persisted record differs from the fetched
one only in bad_login_attempts and possibly status: password hash,
login_count, last_login, must_reset_password, both reset-token fields, and
the identifying fields are unchanged. -/
theorem login_bad_password_frame
    (verify : String → String → Bool) (mbl : Option Nat) (now : Nat)
    (roleTable : List RoleRec) (store : List UserRec) (username pw : String)
    (u : UserRec)
    (hfind : getByUsername store username = some u)
    (hsusp : u.status ≠ "suspended")
    (hmr : u.must_reset_password = false)
    (hpw : verify pw u.password = false) :
    ∃ u2 : UserRec,
      (login verify mbl now roleTable store username pw).2 =
        updateUser store u2 ∧
      u2.password = u.password ∧
      u2.login_count = u.login_count ∧
      u2.last_login = u.last_login ∧
      u2.must_reset_password = u.must_reset_password ∧
      u2.reset_password_token = u.reset_password_token ∧
      u2.reset_password_token_expires = u.reset_password_token_expires ∧
      u2.id = u.id ∧ u2.username = u.username ∧ u2.email = u.email := by
  refine ⟨{ u with
      bad_login_attempts := u.bad_login_attempts + 1
      status := if jsOrDefault mbl 10 ≤ u.bad_login_attempts + 1 then "suspended"
                else u.status }, ?_, rfl, rfl, rfl, rfl, rfl, rfl, rfl, rfl, rfl⟩
  rw [login_wrongPassword_eq verify mbl now roleTable store username pw u
    hfind hsusp hmr hpw]

theorem login_bad_password_frame_witness :
    ∃ u2 : UserRec,
      (login (fun _ _ => false) none 0 [] [wBob] "bob" "nope").2 =
        updateUser [wBob] u2 ∧
      u2.password = wBob.password ∧
      u2.login_count = wBob.login_count ∧
      u2.last_login = wBob.last_login ∧
      u2.must_reset_password = wBob.must_reset_password ∧
      u2.reset_password_token = wBob.reset_password_token ∧
      u2.reset_password_token_expires = wBob.reset_password_token_expires ∧
      u2.id = wBob.id ∧ u2.username = wBob.username ∧ u2.email = wBob.email :=
  login_bad_password_frame (fun _ _ => false) none 0 [] [wBob] "bob" "nope"
    wBob rfl (by decide) rfl rfl

/-- Claim C5: a successful login (existing active user, must_reset_password
false, password matches) resets bad_login_attempts to 0, increments
login_count by exactly 1, sets last_login to the call's UTC clock value
(hence not earlier than the call's start), persists the record, and returns
the identity carrying the role labels fetched for that user id. -/
theorem login_success_updates
    (verify : String → String → Bool) (mbl : Option Nat) (now : Nat)
    (roleTable : List RoleRec) (store : List UserRec) (username pw : String)
    (u : UserRec)
    (hfind : getByUsername store username = some u)
    (hactive : u.status = "active")
    (hmr : u.must_reset_password = false)
    (hpw : verify pw u.password = true) :
    ∃ u2 : UserRec,
      login verify mbl now roleTable store username pw =
        (Except.ok ⟨u2, getRolesForUser roleTable u.id⟩, updateUser store u2) ∧
      u2.bad_login_attempts = 0 ∧
      u2.login_count = u.login_count + 1 ∧
      u2.last_login = some now ∧
      u2.id = u.id := by
  exact ⟨{ u with
      bad_login_attempts := 0
      last_login := some now
      login_count := u.login_count + 1 },
    login_success_eq verify mbl now roleTable store username pw u
      hfind hactive hmr hpw, rfl, rfl, rfl, rfl⟩

/-- An active user with prior bad attempts and some history, for the
successful-login witness. -/
def wCara : UserRec :=
  { id := 3, username := "cara", email := "cara@x", password := "H3",
    status := "active", must_reset_password := false, bad_login_attempts := 4,
    last_login := some 11, login_count := 7, reset_password_token := none,
    reset_password_token_expires := none }

theorem login_success_updates_witness :
    ∃ u2 : UserRec,
      login (fun _ _ => true) none 99 [⟨3, "admin"⟩, ⟨4, "user"⟩] [wCara]
          "cara" "right" =
        (Except.ok ⟨u2, getRolesForUser [⟨3, "admin"⟩, ⟨4, "user"⟩] wCara.id⟩,
         updateUser [wCara] u2) ∧
      u2.bad_login_attempts = 0 ∧
      u2.login_count = wCara.login_count + 1 ∧
      u2.last_login = some 99 ∧
      u2.id = wCara.id :=
  login_success_updates (fun _ _ => true) none 99 [⟨3, "admin"⟩, ⟨4, "user"⟩]
    [wCara] "cara" "right" wCara rfl rfl rfl rfl

/-- Amended claim C6: a suspended account always fails with AccountSuspended
regardless of the password, and a non-suspended account flagged
must_reset_password fails with PasswordResetRequired even when the password
is correct; quantifying over every `verify` function shows neither branch
consults the password hash.  (The suspended check runs first, so suspension
takes precedence when both conditions hold.) -/
theorem login_status_gates
    (mbl : Option Nat) (now : Nat) (roleTable : List RoleRec)
    (store : List UserRec) (username : String) (u : UserRec)
    (hfind : getByUsername store username = some u) :
    (u.status = "suspended" →
      ∀ (verify : String → String → Bool) (pw : String),
        login verify mbl now roleTable store username pw =
          (Except.error (CallerFailure.userSuspendedError suspendedMsg),
           store)) ∧
    (u.status ≠ "suspended" → u.must_reset_password = true →
      ∀ (verify : String → String → Bool) (pw : String),
        login verify mbl now roleTable store username pw =
          (Except.error (CallerFailure.passwordExpiredError passwordExpiredMsg),
           store)) := by
  constructor
  · intro hs verify pw
    unfold login
    rw [hfind]
    simp only [if_pos hs]
  · intro hs hmr verify pw
    unfold login
    rw [hfind]
    simp only [if_neg hs, hmr, if_true]

/-- A suspended account that is also flagged for password reset. -/
def wDanSuspended : UserRec :=
  { id := 4, username := "dan", email := "dan@x", password := "H4",
    status := "suspended", must_reset_password := true,
    bad_login_attempts := 9, last_login := none, login_count := 1,
    reset_password_token := none, reset_password_token_expires := none }

/-- A non-suspended account flagged for password reset. -/
def wEveMustReset : UserRec :=
  { id := 5, username := "eve", email := "eve@x", password := "H5",
    status := "active", must_reset_password := true, bad_login_attempts := 0,
    last_login := none, login_count := 0, reset_password_token := none,
    reset_password_token_expires := none }

/-- Recognizes the caller-facing PasswordResetRequired failure kind. -/
def isPasswordResetRequired : Except CallerFailure Identity → Bool
  | Except.error (CallerFailure.passwordExpiredError _) => true
  | _ => false

/-- Counterexample to claim C6 as stated: `wDanSuspended` has
must_reset_password true and the supplied password is "correct" (the
comparison function returns true on everything), yet login fails with
AccountSuspended, not PasswordResetRequired — the suspended check runs
first. -/
theorem login_must_reset_suspended_counterexample :
    wDanSuspended.must_reset_password = true ∧
    isPasswordResetRequired
      (login (fun _ _ => true) none 0 [] [wDanSuspended] "dan" "pw").1 =
        false ∧
    (login (fun _ _ => true) none 0 [] [wDanSuspended] "dan" "pw").1 =
      Except.error (CallerFailure.userSuspendedError suspendedMsg) :=
  ⟨rfl, rfl, rfl⟩

theorem login_status_gates_witness :
    login (fun _ _ => true) none 0 [] [wDanSuspended] "dan" "pw" =
      (Except.error (CallerFailure.userSuspendedError suspendedMsg),
       [wDanSuspended]) ∧
    login (fun _ _ => true) none 0 [] [wEveMustReset] "eve" "pw" =
      (Except.error (CallerFailure.passwordExpiredError passwordExpiredMsg),
       [wEveMustReset]) :=
  ⟨(login_status_gates none 0 [] [wDanSuspended] "dan" wDanSuspended rfl).1
      rfl (fun _ _ => true) "pw",
   (login_status_gates none 0 [] [wEveMustReset] "eve" wEveMustReset rfl).2
      (by decide) rfl (fun _ _ => true) "pw"⟩

/-- Claim C4: the identifier is matched first against email and only on no
email match against username (email takes priority when both could
resolve); when neither lookup matches, the call fails with UserNotFound and
the credential store is unchanged. -/
theorem generateResetPasswordToken_lookup_policy (tk : String) (now : Nat)
    (store : List UserRec) (uid : String) :
    (∀ u : UserRec, getByEmail store uid = some u →
      generateResetPasswordToken tk now store uid =
        (Except.ok (withResetToken u tk now),
         updateUser store (withResetToken u tk now))) ∧
    (getByEmail store uid = none →
      ∀ u : UserRec, getByUsername store uid = some u →
        generateResetPasswordToken tk now store uid =
          (Except.ok (withResetToken u tk now),
           updateUser store (withResetToken u tk now))) ∧
    (getByEmail store uid = none → getByUsername store uid = none →
      generateResetPasswordToken tk now store uid =
        (Except.error
          (ResetRequestFailure.userNotFound "Unable to reset password."),
         store)) := by
  refine ⟨?_, ?_, ?_⟩
  · intro u he
    unfold generateResetPasswordToken lookupByEmailThenUsername
    rw [he]
  · intro he u hu
    unfold generateResetPasswordToken lookupByEmailThenUsername
    rw [he, hu]
  · intro he hu
    unfold generateResetPasswordToken lookupByEmailThenUsername
    rw [he, hu]

/-- A user whose username is the shared identifier string "x". -/
def wFred : UserRec :=
  { id := 6, username := "x", email := "fred@x", password := "H6",
    status := "active", must_reset_password := false, bad_login_attempts := 0,
    last_login := none, login_count := 0, reset_password_token := none,
    reset_password_token_expires := none }

/-- A user whose email is the shared identifier string "x"; listed after
`wFred`, so only email priority can select her. -/
def wGail : UserRec :=
  { id := 7, username := "gail", email := "x", password := "H7",
    status := "active", must_reset_password := false, bad_login_attempts := 0,
    last_login := none, login_count := 0, reset_password_token := none,
    reset_password_token_expires := none }

theorem generateResetPasswordToken_lookup_policy_witness :
    generateResetPasswordToken "T" 5 [wFred, wGail] "x" =
      (Except.ok (withResetToken wGail "T" 5),
       updateUser [wFred, wGail] (withResetToken wGail "T" 5)) ∧
    generateResetPasswordToken "T" 5 [wFred, wGail] "zz" =
      (Except.error
        (ResetRequestFailure.userNotFound "Unable to reset password."),
       [wFred, wGail]) :=
  ⟨(generateResetPasswordToken_lookup_policy "T" 5 [wFred, wGail] "x").1
      wGail rfl,
   (generateResetPasswordToken_lookup_policy "T" 5 [wFred, wGail] "zz").2.2
      rfl rfl⟩

/-- A concrete stand-in for `bcrypt.hash`: tags the plaintext with the cost. -/
def c3Hash : String → Nat → String :=
  fun p c => String.append p (String.append "#" (Nat.repr c))

/-- A user holding a live reset token "tok8" expiring at time 1000. -/
def wHank : UserRec :=
  { id := 8, username := "hank", email := "hank@x", password := "oldhash",
    status := "active", must_reset_password := true, bad_login_attempts := 6,
    last_login := some 3, login_count := 2,
    reset_password_token := some "tok8",
    reset_password_token_expires := some 1000 }

/-- `wHank` after a valid redemption: new hash stored, flags and counters
cleared. -/
def wHankAfter : UserRec :=
  { wHank with
    password := c3Hash "npw" 5
    must_reset_password := false
    reset_password_token := none
    reset_password_token_expires := none
    bad_login_attempts := 0 }

/-- Claim C3, evaluated at the failing input: redeeming the valid,
unexpired token "tok8" at time 500 does store the newly hashed password,
clear must_reset_password, clear both token fields, zero
bad_login_attempts, and persist the record — and a second call with the
same token then fails with InvalidResetToken — but the call resolves with
`none` (JavaScript `undefined`), not the updated record, because
`bcrypt.hash`'s callback result never reaches the promise chain. -/
theorem resetPassword_valid_token_behavior :
    resetPassword c3Hash 5 500 [wHank] "tok8" "npw" =
      (Except.ok none, [wHankAfter]) ∧
    resetPassword c3Hash 5 500 [wHankAfter] "tok8" "npw" =
      (Except.error ResetFailure.invalidResetToken, [wHankAfter]) :=
  ⟨rfl, rfl⟩

/-- Claim C7: a token issued at time t carries expiry t + 24h; redeeming it
at t + 23h59m succeeds (the promise resolves), and redeeming it at
t + 24h1m fails with ExpiredResetToken while leaving the store — hence the
stale token and its expiry — untouched. -/
theorem reset_token_expiry_window
    (hashFn : String → Nat → String) (cost : Nat) (tk npw uid : String)
    (t : Nat) (store store2 : List UserRec) (u u2 : UserRec)
    (hiss : generateResetPasswordToken tk t store uid =
      (Except.ok u, store2))
    (hfind : getByPasswordResetToken store2 tk = some u2)
    (hexp : u2.reset_password_token_expires =
      some (t + resetTokenTtlSeconds)) :
    u.reset_password_token_expires = some (t + resetTokenTtlSeconds) ∧
    (∃ v, (resetPassword hashFn cost (t + 86340) store2 tk npw).1 =
      Except.ok v) ∧
    resetPassword hashFn cost (t + 86460) store2 tk npw =
      (Except.error ResetFailure.expiredResetToken, store2) := by
  have hlive : expiresBeforeNow u2.reset_password_token_expires
      (t + 86340) = false := by
    rw [hexp]
    simp only [expiresBeforeNow, resetTokenTtlSeconds]
    exact decide_eq_false (by omega)
  have hstale : expiresBeforeNow u2.reset_password_token_expires
      (t + 86460) = true := by
    rw [hexp]
    simp only [expiresBeforeNow, resetTokenTtlSeconds]
    exact decide_eq_true (by omega)
  refine ⟨?_, ?_, ?_⟩
  · unfold generateResetPasswordToken at hiss
    cases hl : lookupByEmailThenUsername store uid with
    | none =>
        rw [hl] at hiss
        simp only [Prod.mk.injEq] at hiss
        exact absurd hiss.1 (by simp)
    | some w =>
        rw [hl] at hiss
        simp only [Prod.mk.injEq, Except.ok.injEq] at hiss
        rw [← hiss.1]
        rfl
  · refine ⟨none, ?_⟩
    unfold resetPassword
    rw [hfind]
    simp only [hlive, Bool.false_eq_true, if_false]
  · unfold resetPassword
    rw [hfind]
    simp only [hstale, if_true]

/-- A tokenless active user for the token-expiry witness. -/
def wIva : UserRec :=
  { id := 9, username := "iva", email := "iva@x", password := "H9",
    status := "active", must_reset_password := false, bad_login_attempts := 0,
    last_login := none, login_count := 0, reset_password_token := none,
    reset_password_token_expires := none }

theorem reset_token_expiry_window_witness :
    (withResetToken wIva "TK" 0).reset_password_token_expires =
      some (0 + resetTokenTtlSeconds) ∧
    (∃ v, (resetPassword c3Hash 5 (0 + 86340) [withResetToken wIva "TK" 0]
      "TK" "np").1 = Except.ok v) ∧
    resetPassword c3Hash 5 (0 + 86460) [withResetToken wIva "TK" 0]
        "TK" "np" =
      (Except.error ResetFailure.expiredResetToken,
       [withResetToken wIva "TK" 0]) :=
  reset_token_expiry_window c3Hash 5 "TK" "np" "iva@x" 0 [wIva]
    [withResetToken wIva "TK" 0] (withResetToken wIva "TK" 0)
    (withResetToken wIva "TK" 0) rfl rfl rfl

/-- A SQL `DELETE WHERE p` over a list of rows removes exactly the rows
satisfying p and reports their number. -/
theorem deleteRowsWhere_spec (p : SessionRec → Bool) (l : List SessionRec) :
    deleteRowsWhere p l = ((l.filter p).length, l.filter (fun s => ! p s)) := by
  induction l with
  | nil => rfl
  | cons s rest ih =>
    simp only [deleteRowsWhere, ih, List.filter]
    cases hp : p s
    · simp [hp]
    · simp [hp]

/-- Amended claim C8: each invocation of the session reaper deletes exactly
those session records whose expiry timestamp is strictly before the current
time — leaving every session whose expiry is at or after the current time —
and reports the count of records removed. -/
theorem reap_removes_strictly_expired (now : Nat)
    (sessions : List SessionRec) :
    reapExpiredSessionsTick now sessions =
      ((sessions.filter (fun s => decide (s.expires < now))).length,
       sessions.filter (fun s => ! decide (s.expires < now))) :=
  deleteRowsWhere_spec _ sessions

/-- Counterexample to claim C8 as stated: a session whose expiry equals the
current time (expiry at or before now) is kept, not deleted, and the
reported count is 0 — `deleteWhereExpired` compares with a strict
`expires < CURRENT_TIMESTAMP`. -/
theorem reap_keeps_boundary_session :
    (⟨1, 1, 5⟩ : SessionRec).expires ≤ 5 ∧
    reapExpiredSessionsTick 5 [⟨1, 1, 5⟩] = (0, [⟨1, 1, 5⟩]) :=
  ⟨Nat.le.refl, rfl⟩

/-- Claim C9: the route guard denies exactly when the session is absent,
carries no user identity, or carries an identity whose status is not
"active"; every denial redirects to the login entry point with the
originally requested path as the rp return-to parameter; and the guard
leaves both stores untouched in every case. -/
theorem secureFollowingRoutes_spec (store : List UserRec)
    (sessions : List SessionRec) (session : Option ReqSession)
    (path : String) :
    ((secureFollowingRoutes store sessions session path).1 =
        GuardResult.next ↔
      ∃ s u, session = some s ∧ s.user = some u ∧ u.status = "active") ∧
    ((secureFollowingRoutes store sessions session path).1 =
        GuardResult.next ∨
      (secureFollowingRoutes store sessions session path).1 =
        GuardResult.redirect ("/login" ++ ("?rp=" ++ path))) ∧
    (secureFollowingRoutes store sessions session path).2 =
      (store, sessions) := by
  cases session with
  | none =>
    refine ⟨⟨fun h => GuardResult.noConfusion h, ?_⟩, Or.inr rfl, rfl⟩
    rintro ⟨s', u', hs', -, -⟩
    exact Option.noConfusion hs'
  | some s =>
    cases hu : s.user with
    | none =>
      have hres : secureFollowingRoutes store sessions (some s) path =
          (GuardResult.redirect ("/login" ++ ("?rp=" ++ path)),
           store, sessions) := by
        simp [secureFollowingRoutes, hu]
      rw [hres]
      refine ⟨⟨fun h => GuardResult.noConfusion h, ?_⟩, Or.inr rfl, rfl⟩
      rintro ⟨s', u', hs', hu', -⟩
      obtain rfl : s = s' := by injection hs'
      rw [hu] at hu'
      exact Option.noConfusion hu'
    | some u =>
      by_cases hst : u.status = "active"
      · have hres : secureFollowingRoutes store sessions (some s) path =
            (GuardResult.next, store, sessions) := by
          simp [secureFollowingRoutes, hu, hst]
        rw [hres]
        exact ⟨⟨fun _ => ⟨s, u, rfl, hu, hst⟩, fun _ => rfl⟩, Or.inl rfl, rfl⟩
      · have hres : secureFollowingRoutes store sessions (some s) path =
            (GuardResult.redirect ("/login" ++ ("?rp=" ++ path)),
             store, sessions) := by
          simp [secureFollowingRoutes, hu, hst]
        rw [hres]
        refine ⟨⟨fun h => GuardResult.noConfusion h, ?_⟩, Or.inr rfl, rfl⟩
        rintro ⟨s', u', hs', hu', hst'⟩
        obtain rfl : s = s' := by injection hs'
        rw [hu] at hu'
        obtain rfl : u = u' := by injection hu'
        exact absurd hst' hst

theorem secureFollowingRoutes_spec_witness :
    (secureFollowingRoutes [] [] (some ⟨some wCara⟩) "/acct").1 =
      GuardResult.next ∧
    (secureFollowingRoutes [] [] none "/acct").2 = ([], []) :=
  ⟨(secureFollowingRoutes_spec [] [] (some ⟨some wCara⟩) "/acct").1.mpr
      ⟨⟨some wCara⟩, wCara, rfl, rfl, rfl⟩,
   (secureFollowingRoutes_spec [] [] none "/acct").2.2⟩
